import Mathlib

set_option maxRecDepth 40000

/-
  Verification development for the weather-api-server repository.

  The Go sources are shallowly embedded as executable Lean definitions:
  * `Frac` models float64 values by exact fractions (every finite float64 is a
    rational; the program only constructs values from decimal literals and
    compares or linearly combines them, so exact rational arithmetic reproduces
    the comparisons the code performs; IEEE rounding of intermediate results is
    not modelled).  `GoFloat` adds NaN and the infinities with IEEE comparison
    semantics (every comparison involving NaN is false).
  * `goParseFloat` models `strconv.ParseFloat(s, 64)` on decimal inputs and the
    special forms inf/infinity/nan (hex floats and digit-separating underscores
    are outside the model); oversized values yield `none`, matching Go's
    ErrRange being treated as a parse failure by the caller.
  * `parseCoordinates`, `sendJSONResponse`, `sendErrorResponse` and
    `handleGetWeather` embed internal/handler/weather.go.  The HTTP response
    writer is modelled with net/http semantics: the first WriteHeader wins and
    header changes after WriteHeader do not reach the wire.
  * `serviceRespond`, `categorizeTemperature`, `kelvinToFahrenheit` and
    `buildAPIURL` embed the OpenWeatherMap service (weather_service.go, whose
    text is embedded in internal/service/weather_server_test.go).
  * `getEnvAsIntWithDefault`, `getEnvAsMustStr`, `getEnvAsStrWithDefault` and
    `loadServerConfig` embed internal/utils/env.go and main.go.
-/

/-- Exact fraction `num / den` standing for a float64 value.  The denominator is
kept as a `Nat` and is positive for every value the embedding constructs; no
gcd normalisation is performed so that all operations reduce in the kernel. -/
structure Frac where
  num : Int
  den : Nat
deriving DecidableEq

/-- Boolean `<` on fractions by cross multiplication (denominators positive). -/
def Frac.blt (a b : Frac) : Bool := a.num * (b.den : Int) < b.num * (a.den : Int)

/-- Boolean `≤` on fractions by cross multiplication (denominators positive). -/
def Frac.ble (a b : Frac) : Bool := a.num * (b.den : Int) ≤ b.num * (a.den : Int)

/-- Exact subtraction. -/
def Frac.sub (a b : Frac) : Frac := ⟨a.num * b.den - b.num * a.den, a.den * b.den⟩

/-- Exact addition. -/
def Frac.add (a b : Frac) : Frac := ⟨a.num * b.den + b.num * a.den, a.den * b.den⟩

/-- Exact multiplication. -/
def Frac.mul (a b : Frac) : Frac := ⟨a.num * b.num, a.den * b.den⟩

/-- Exact reciprocal (sign moved to the numerator). -/
def Frac.inv (a : Frac) : Frac :=
  if 0 ≤ a.num then ⟨(a.den : Int), a.num.toNat⟩ else ⟨-(a.den : Int), (-a.num).toNat⟩

/-- Exact division. -/
def Frac.div (a b : Frac) : Frac := a.mul b.inv

/-- Absolute value. -/
def Frac.abs (a : Frac) : Frac := ⟨|a.num|, a.den⟩

/-- The rational value of a fraction, for stating order-theoretic properties. -/
def Frac.toRat (a : Frac) : ℚ := (a.num : ℚ) / (a.den : ℚ)

/-- A float64 as seen by the Go program: a finite value, NaN, or an infinity. -/
inductive GoFloat where
  | finite (q : Frac)
  | nan
  | posInf
  | negInf
deriving DecidableEq

/-- IEEE-754 `<`: any comparison involving NaN is false. -/
def GoFloat.lt : GoFloat → GoFloat → Bool
  | .finite a, .finite b => a.blt b
  | .nan, _ => false
  | _, .nan => false
  | .negInf, .negInf => false
  | .negInf, _ => true
  | _, .negInf => false
  | .posInf, _ => false
  | _, .posInf => true

/-- IEEE-754 `>`. -/
def GoFloat.gt (a b : GoFloat) : Bool := GoFloat.lt b a

/-- Decimal digit test on a character. -/
def isDigit (c : Char) : Bool := 48 ≤ c.toNat && c.toNat ≤ 57

/-- Split a leading run of decimal digits off a character list, returning the
digit values and the remainder. -/
def takeDigits : List Char → List Nat × List Char
  | [] => ([], [])
  | c :: cs =>
    if isDigit c then
      let (ds, rest) := takeDigits cs
      ((c.toNat - 48) :: ds, rest)
    else ([], c :: cs)

/-- Value of a digit list read most-significant first. -/
def digitsToNat (ds : List Nat) : Nat := ds.foldl (fun a d => a * 10 + d) 0

/-- Strip one optional leading sign, returning whether it was a minus. -/
def stripSign : List Char → Bool × List Char
  | '+' :: cs => (false, cs)
  | '-' :: cs => (true, cs)
  | cs => (false, cs)

/-- Largest finite float64, `(2^53 - 1) * 2^971`, as an exact fraction. -/
def maxFloat64 : Frac := ⟨((2 ^ 53 - 1) * 2 ^ 971 : Nat), 1⟩

/-- Decimal part of the `strconv.ParseFloat` grammar: optional sign, digits
with an optional fraction, optional decimal exponent; the whole input must be
consumed.  A mantissa of zero is exactly zero; values beyond float64 range give
`none` (Go reports ErrRange, which the callers treat as a parse failure);
values far below the subnormal range become zero as in float64. -/
def parseDecimalCore (cs : List Char) : Option Frac :=
  let (neg, cs1) := stripSign cs
  let (intDs, cs2) := takeDigits cs1
  let (fracDs, cs3) :=
    match cs2 with
    | '.' :: rest => takeDigits rest
    | _ => ([], cs2)
  if intDs.isEmpty && fracDs.isEmpty then none
  else
    let expPart : Option Int :=
      match cs3 with
      | [] => some 0
      | e :: rest =>
        if e = 'e' || e = 'E' then
          let (eneg, rest1) := stripSign rest
          let (expDs, rest2) := takeDigits rest1
          if expDs.isEmpty || !rest2.isEmpty then none
          else some (if eneg then -(digitsToNat expDs : Int) else (digitsToNat expDs : Int))
        else none
    match expPart with
    | none => none
    | some e =>
      let m := digitsToNat (intDs ++ fracDs)
      let e10 : Int := e - fracDs.length
      if m = 0 then some ⟨0, 1⟩
      else if 320 < e10 then none
      else if e10 + (intDs.length + fracDs.length : Int) < -340 then some ⟨0, 1⟩
      else
        let q : Frac :=
          if 0 ≤ e10 then ⟨(if neg then -(m : Int) else (m : Int)) * ((10 ^ e10.toNat : Nat) : Int), 1⟩
          else ⟨(if neg then -(m : Int) else (m : Int)), 10 ^ (-e10).toNat⟩
        if maxFloat64.blt q.abs then none else some q

/-- ASCII lower-casing of one character. -/
def lowerChar (c : Char) : Char :=
  if 65 ≤ c.toNat ∧ c.toNat ≤ 90 then Char.ofNat (c.toNat + 32) else c

/-- ASCII lower-casing of a string. -/
def lowerString (s : String) : String := String.mk (s.data.map lowerChar)

/-- The special forms recognised by `strconv.ParseFloat`: optionally signed
infinity, and unsigned NaN, all case-insensitive. -/
def parseSpecial (s : String) : Option GoFloat :=
  let l := lowerString s
  if l = "nan" then some .nan
  else if l = "inf" || l = "infinity" || l = "+inf" || l = "+infinity" then some .posInf
  else if l = "-inf" || l = "-infinity" then some .negInf
  else none

/-- Model of `strconv.ParseFloat(s, 64)`; `none` models a non-nil error. -/
def goParseFloat (s : String) : Option GoFloat :=
  match parseSpecial s with
  | some f => some f
  | none => (parseDecimalCore s.data).map GoFloat.finite

/-- Left-pad a string with zeros to the given width. -/
def padLeftZeros (s : String) (w : Nat) : String :=
  if s.length < w then String.mk (List.replicate (w - s.length) '0') ++ s else s

/-- Round `a / d` (with `d > 0`) to the nearest integer, ties to even, as the
fixed-precision formatter does. -/
def roundNearestEven (a d : Nat) : Nat :=
  let v := a / d
  let r := a % d
  if d < 2 * r then v + 1
  else if 2 * r < d then v
  else if v % 2 = 0 then v else v + 1

/-- `fmt.Sprintf("%.4f", x)` for a finite value. -/
def formatFixed4Frac (q : Frac) : String :=
  let neg := q.num < 0
  let n := roundNearestEven (q.num.natAbs * 10000) q.den
  (if neg then "-" else "") ++ toString (n / 10000) ++ "." ++ padLeftZeros (toString (n % 10000)) 4

/-- `fmt.Sprintf("%.4f", x)` including the special values. -/
def formatFixed4 : GoFloat → String
  | .finite q => formatFixed4Frac q
  | .nan => "NaN"
  | .posInf => "+Inf"
  | .negInf => "-Inf"

/-- Result of `WeatherHandler.parseCoordinates`: either the two parsed floats
or the error message that becomes the 400 body. -/
inductive ParseCoordResult where
  | ok (lat lon : GoFloat)
  | err (msg : String)
deriving DecidableEq

/-- Embeds `WeatherHandler.parseCoordinates` (internal/handler/weather.go).
`latStr` and `lonStr` are the values of `r.URL.Query().Get`, which returns the
empty string when the parameter is absent, so a missing parameter and an empty
one coincide, as in the source. -/
def parseCoordinates (latStr lonStr : String) : ParseCoordResult :=
  if latStr = "" ∨ lonStr = "" then .err "lat and lon query parameters are required"
  else
    match goParseFloat latStr with
    | none => .err ("invalid latitude value: " ++ latStr)
    | some lat =>
      match goParseFloat lonStr with
      | none => .err ("invalid longitude value: " ++ lonStr)
      | some lon =>
        if lat.lt (.finite ⟨-90, 1⟩) || lat.gt (.finite ⟨90, 1⟩) then
          .err ("latitude must be between -90 and 90, got: " ++ formatFixed4 lat)
        else if lon.lt (.finite ⟨-180, 1⟩) || lon.gt (.finite ⟨180, 1⟩) then
          .err ("longitude must be between -180 and 180, got: " ++ formatFixed4 lon)
        else .ok lat lon

/-- JSON string escaping as performed by `encoding/json` with the default
HTML escaping of an `Encoder`. -/
def jsonEscapeChar (c : Char) : String :=
  if c = '"' then "\\\""
  else if c = '\\' then "\\\\"
  else if c = '\n' then "\\n"
  else if c = '\r' then "\\r"
  else if c = '\t' then "\\t"
  else if c.toNat < 32 then
    "\\u00" ++ String.mk [if c.toNat / 16 < 10 then Char.ofNat (48 + c.toNat / 16) else Char.ofNat (87 + c.toNat / 16),
                          if c.toNat % 16 < 10 then Char.ofNat (48 + c.toNat % 16) else Char.ofNat (87 + c.toNat % 16)]
  else if c = '<' then "\\u003c"
  else if c = '>' then "\\u003e"
  else if c = '&' then "\\u0026"
  else if c.toNat = 0x2028 then "\\u2028"
  else if c.toNat = 0x2029 then "\\u2029"
  else String.singleton c

/-- JSON escaping of a whole string. -/
def jsonEscape (s : String) : String := String.join (s.data.map jsonEscapeChar)

/-- JSON encoding of the handler's `ErrorResponse\x7bError: msg\x7d` value. -/
def errorJSON (msg : String) : String := "\x7b\"error\":\"" ++ jsonEscape msg ++ "\"\x7d"

/-- The outbound record built by the service (`WeatherData` in Go). -/
structure WeatherData where
  ObservationTime : String
  Country : String
  City : String
  Condition : String
  TemperatureCategory : String
deriving DecidableEq

/-- JSON encoding of `WeatherData` by `encoding/json` (no field tags, so the
Go field names are used verbatim). -/
def encodeWeatherData (d : WeatherData) : String :=
  "\x7b\"ObservationTime\":\"" ++ jsonEscape d.ObservationTime
    ++ "\",\"Country\":\"" ++ jsonEscape d.Country
    ++ "\",\"City\":\"" ++ jsonEscape d.City
    ++ "\",\"Condition\":\"" ++ jsonEscape d.Condition
    ++ "\",\"TemperatureCategory\":\"" ++ jsonEscape d.TemperatureCategory ++ "\"\x7d"

/-- State of an `http.ResponseWriter` as it reaches the wire.  Per net/http, a
second `WriteHeader` is superfluous and ignored, and header-map changes made
after `WriteHeader` do not reach the wire. -/
structure ResponseWriter where
  contentType : Option String
  status : Option Nat
  body : String
deriving DecidableEq

/-- A fresh response writer. -/
def emptyWriter : ResponseWriter := ⟨none, none, ""⟩

/-- `w.Header().Set("Content-Type", ct)`: effective only before WriteHeader. -/
def ResponseWriter.setContentType (w : ResponseWriter) (ct : String) : ResponseWriter :=
  if w.status.isSome then w else { w with contentType := some ct }

/-- `w.WriteHeader(code)`: the first call wins, later calls are ignored. -/
def ResponseWriter.writeHeader (w : ResponseWriter) (code : Nat) : ResponseWriter :=
  if w.status.isSome then w else { w with status := some code }

/-- `w.Write`: appends to the body. -/
def ResponseWriter.write (w : ResponseWriter) (s : String) : ResponseWriter :=
  { w with body := w.body ++ s }

/-- Embeds `WeatherHandler.sendJSONResponse`.  `payload` is the JSON encoding
of the data (an `Encoder` appends a newline); `encodeOk` tells whether
`Encode` succeeds — for the string-only payloads of this program marshalling
cannot fail, so `false` models a failing write to the connection, after which
the code calls `http.Error(w, "Internal server error", 500)`. -/
def sendJSONResponse (encodeOk : Bool) (statusCode : Nat) (payload : String)
    (w : ResponseWriter) : ResponseWriter :=
  let w1 := (w.setContentType "application/json").writeHeader statusCode
  if encodeOk then w1.write (payload ++ "\n")
  else (((w1.setContentType "text/plain; charset=utf-8").writeHeader 500).write
          "Internal server error\n")

/-- Embeds `WeatherHandler.sendErrorResponse` (encoding an `ErrorResponse`
never fails to marshal). -/
def sendErrorResponse (statusCode : Nat) (msg : String) (w : ResponseWriter) : ResponseWriter :=
  sendJSONResponse true statusCode (errorJSON msg) w

/-- Embeds `WeatherHandler.GetWeather`.  `latStr`/`lonStr` are the `lat`/`lon`
query values (empty when absent); `svc` is the `WeatherService` capability
(its `error` carries the message of the returned Go error).  The returned
`Bool` records whether the upstream service was invoked. -/
def handleGetWeather (method latStr lonStr : String)
    (svc : GoFloat → GoFloat → Except String WeatherData) : ResponseWriter × Bool :=
  if method ≠ "GET" then (sendErrorResponse 405 "Method not allowed" emptyWriter, false)
  else
    match parseCoordinates latStr lonStr with
    | .err m => (sendErrorResponse 400 m emptyWriter, false)
    | .ok lat lon =>
      match svc lat lon with
      | .error _ => (sendErrorResponse 503 "Unable to fetch weather data" emptyWriter, true)
      | .ok d => (sendJSONResponse true 200 (encodeWeatherData d) emptyWriter, true)

/-- Fahrenheit from Kelvin exactly as the source computes it:
`(temp - 273.15) * 9 / 5 + 32`. -/
def kelvinToFahrenheit (k : Frac) : Frac :=
  (((k.sub ⟨27315, 100⟩).mul ⟨9, 1⟩).div ⟨5, 1⟩).add ⟨32, 1⟩

/-- Embeds `categorizeTemperature` (weather_service.go): a switch on the
Fahrenheit value with cases `t < 50`, `t >= 50 && t < 68`, and a default. -/
def categorizeTemperature (t : Frac) : String :=
  if t.blt ⟨50, 1⟩ then "cold"
  else if (Frac.ble ⟨50, 1⟩ t) && t.blt ⟨68, 1⟩ then "moderate"
  else "hot"

/-- The parsed upstream envelope (`OpenWeatherMapResponse` in Go, flattened):
`Weather` lists the `weather[*].main` labels, `MainTemp` is `main.temp` in
Kelvin, `HttpCode` is the body field `cod`, `Country` is `sys.country` and
`Name` is `name`.  Fields absent from the JSON decode to Go zero values. -/
structure OpenWeatherMapResponse where
  Weather : List String
  MainTemp : Frac
  UnixSeconds : Int
  Country : String
  Name : String
  HttpCode : Int
  Message : String
deriving DecidableEq

/-- Outcome of `OpenWeatherMapService.GetWeather` after the body has been
read: a returned `WeatherData`, a returned error, or a runtime panic. -/
inductive GetWeatherOutcome where
  | ok (d : WeatherData)
  | err (msg : String)
  | panicked
deriving DecidableEq

/-- Embeds the response processing of `OpenWeatherMapService.GetWeather`
(weather_service.go, after the body has been read).  `fmtTime` stands for
`weatherCheckTime`, whose output depends on the host time zone; `httpStatus`
is `resp.StatusCode`, which the source never consults; `body` is the result of
`json.Unmarshal`.  When `cod` is 200 and the `weather` slice is empty the
source evaluates `mapResponse.Weather[0]`, which panics with an index out of
range; `panicked` models that. -/
def serviceRespond (fmtTime : Int → String) (httpStatus : Nat)
    (body : Except String OpenWeatherMapResponse) : GetWeatherOutcome :=
  match body with
  | .error e => .err ("failed to parse JSON response: " ++ e)
  | .ok r =>
    if r.HttpCode ≠ 200 then
      .err ("OpenWeatherMap API error (code " ++ toString r.HttpCode ++ "): " ++ r.Message)
    else
      match r.Weather with
      | [] => .panicked
      | c :: _ =>
        .ok ⟨fmtTime r.UnixSeconds, r.Country, r.Name, c,
             categorizeTemperature (kelvinToFahrenheit r.MainTemp)⟩

/-- UTF-8 bytes of one character. -/
def utf8Bytes (c : Char) : List Nat :=
  let n := c.toNat
  if n < 0x80 then [n]
  else if n < 0x800 then [0xC0 + n / 0x40, 0x80 + n % 0x40]
  else if n < 0x10000 then [0xE0 + n / 0x1000, 0x80 + (n / 0x40) % 0x40, 0x80 + n % 0x40]
  else [0xF0 + n / 0x40000, 0x80 + (n / 0x1000) % 0x40, 0x80 + (n / 0x40) % 0x40, 0x80 + n % 0x40]

/-- Uppercase hexadecimal digit. -/
def hexDigitUpper (n : Nat) : Char := if n < 10 then Char.ofNat (48 + n) else Char.ofNat (55 + n)

/-- `url.QueryEscape` on one character: unreserved ASCII passes through, a
space becomes `+`, everything else is percent-encoded byte-wise. -/
def queryEscapeChar (c : Char) : String :=
  let n := c.toNat
  if (65 ≤ n ∧ n ≤ 90) ∨ (97 ≤ n ∧ n ≤ 122) ∨ (48 ≤ n ∧ n ≤ 57)
      ∨ c = '-' ∨ c = '_' ∨ c = '.' ∨ c = '~' then String.singleton c
  else if c = ' ' then "+"
  else String.join ((utf8Bytes c).map fun b =>
    "%" ++ String.mk [hexDigitUpper (b / 16), hexDigitUpper (b % 16)])

/-- `url.QueryEscape` on a string. -/
def queryEscape (s : String) : String := String.join (s.data.map queryEscapeChar)

/-- Byte-wise (equivalently code-point-wise) strict order on strings, the
order `sort.Strings` uses inside `url.Values.Encode`. -/
def charListLt : List Char → List Char → Bool
  | [], [] => false
  | [], _ :: _ => true
  | _ :: _, [] => false
  | a :: as, b :: bs =>
    if a.toNat < b.toNat then true
    else if b.toNat < a.toNat then false
    else charListLt as bs

/-- Strict string order on the underlying characters. -/
def strLtB (a b : String) : Bool := charListLt a.data b.data

/-- Insert a key-value pair into a key-sorted list, after equal keys. -/
def insertPairSorted (p : String × String) : List (String × String) → List (String × String)
  | [] => [p]
  | q :: rest => if strLtB p.1 q.1 then p :: q :: rest else q :: insertPairSorted p rest

/-- Sort key-value pairs by key, as `url.Values.Encode` does. -/
def sortPairsByKey : List (String × String) → List (String × String)
  | [] => []
  | p :: rest => insertPairSorted p (sortPairsByKey rest)

/-- Join already-ordered pairs as `k=v` separated by `&`, escaping both keys
and values. -/
def encodePairs (ps : List (String × String)) : String :=
  String.intercalate "&" (ps.map fun p => queryEscape p.1 ++ "=" ++ queryEscape p.2)

/-- Embeds `url.Values.Encode`: pairs are emitted sorted by key. -/
def urlValuesEncode (ps : List (String × String)) : String := encodePairs (sortPairsByKey ps)

/-- Fractional decimal digits of `numRem / den`, most significant first; fuel
bounds the recursion and exceeds the longest terminating expansion a float64
can have, so for every value the program formats the digits are exact. -/
def fracDigitLoop (numRem den : Nat) : Nat → List Char
  | 0 => []
  | fuel + 1 =>
    if numRem = 0 then []
    else
      let a := numRem * 10
      Char.ofNat (48 + a / den) :: fracDigitLoop (a % den) den fuel

/-- `strconv.FormatFloat(x, 'f', -1, 64)` for values with a terminating
decimal expansion (every float64 has one): no exponent, no fixed precision,
trailing zeros trimmed, no decimal point for integers. -/
def formatFloatShortest (q : Frac) : String :=
  let frDigits := fracDigitLoop (q.num.natAbs % q.den) q.den 1200
  (if q.num < 0 then "-" else "") ++ toString (q.num.natAbs / q.den)
    ++ (if frDigits.isEmpty then "" else "." ++ String.mk frDigits)

/-- Embeds `OpenWeatherMapService.buildAPIURL` for the success path of
`url.Parse` on a base URL without query or fragment (the configured shape),
where parsing `baseURL + "/weather"`, setting `RawQuery`, and printing the URL
appends `?` and the encoded query to the parsed string. -/
def buildAPIURL (baseURL apiKey : String) (lat lon : Frac) : String :=
  baseURL ++ "/weather?" ++ urlValuesEncode
    [("lat", formatFloatShortest lat), ("lon", formatFloatShortest lon), ("appid", apiKey)]

/-- Model of `strconv.Atoi`: optional sign, decimal digits only, and the value
must fit in a 64-bit int (Go returns ErrRange otherwise, which the caller
treats as invalid). -/
def goAtoi (s : String) : Option Int :=
  match s.data with
  | [] => none
  | cs =>
    let (neg, cs1) := stripSign cs
    let (ds, rest) := takeDigits cs1
    if ds.isEmpty || !rest.isEmpty then none
    else
      let v : Int := if neg then -(digitsToNat ds : Int) else (digitsToNat ds : Int)
      if v < -((2 ^ 63 : Nat) : Int) ∨ ((2 ^ 63 - 1 : Nat) : Int) < v then none else some v

/-- Embeds `utils.GetEnvAsStrWithDefault`.  `env` models `os.Getenv`, which
returns the empty string for unset variables, so unset and empty coincide. -/
def getEnvAsStrWithDefault (env : String → String) (envName defValue : String) : String :=
  if env envName = "" then defValue else env envName

/-- Embeds `utils.GetEnvAsMustStr`. -/
def getEnvAsMustStr (env : String → String) (envName errMsg : String) : Except String String :=
  if env envName = "" then .error errMsg else .ok (env envName)

/-- Embeds `utils.GetEnvAsIntWithDefault`: the default survives an unset,
empty, or unparseable value. -/
def getEnvAsIntWithDefault (env : String → String) (envName : String) (defValue : Int) : Int :=
  if env envName = "" then defValue
  else
    match goAtoi (env envName) with
    | none => defValue
    | some v => v

/-- The server configuration record (`Config` in main.go). -/
structure Config where
  Port : String
  OpenWeatherAPIKey : String
  OpenWeatherBaseURL : String
  ReadTimeoutSec : Int
  WriteTimeoutSec : Int
  IdleTimeoutSec : Int
  ClientTimeoutSec : Int
  ServerShutdownTimeoutSec : Int
deriving DecidableEq

/-- Embeds `loadServerConfig` (main.go): the API key is required, everything
else has a default.  `main` exits with a non-zero status exactly when this
returns an error. -/
def loadServerConfig (env : String → String) : Except String Config :=
  match getEnvAsMustStr env "OPENWEATHER_API_KEY"
      "OPENWEATHER_API_KEY environment variable is required" with
  | .error e => .error e
  | .ok apiKey =>
    .ok
      { Port := getEnvAsStrWithDefault env "APP_SERVER_PORT" "8080"
        OpenWeatherAPIKey := apiKey
        OpenWeatherBaseURL :=
          getEnvAsStrWithDefault env "OPENWEATHER_BASE_URL" "https://api.openweathermap.org/data/2.5"
        ReadTimeoutSec := getEnvAsIntWithDefault env "APP_SERVER_READ_TIMEOUT_SEC" 15
        WriteTimeoutSec := getEnvAsIntWithDefault env "APP_SERVER_WRITE_TIMEOUT_SEC" 15
        IdleTimeoutSec := getEnvAsIntWithDefault env "APP_SERVER_IDLE_TIMEOUT_SEC" 120
        ClientTimeoutSec := getEnvAsIntWithDefault env "APP_SERVER_CLIENT_TIMEOUT_SEC" 10
        ServerShutdownTimeoutSec := getEnvAsIntWithDefault env "APP_SERVER_SHUTDOWN_TIMEOUT_SEC" 30 }

/-- The validation pipeline as the specification words it: first the
missing-or-empty check, then parseability of latitude and longitude, then the
range checks, each failure yielding the documented message.  Stated from the
spec for comparison with `parseCoordinates`. -/
def specOrderedValidation (latStr lonStr : String) : ParseCoordResult :=
  if latStr = "" ∨ lonStr = "" then .err "lat and lon query parameters are required"
  else
    match goParseFloat latStr with
    | none => .err ("invalid latitude value: " ++ latStr)
    | some lat =>
      match goParseFloat lonStr with
      | none => .err ("invalid longitude value: " ++ lonStr)
      | some lon =>
        if lat.lt (.finite ⟨-90, 1⟩) || lat.gt (.finite ⟨90, 1⟩) then
          .err ("latitude must be between -90 and 90, got: " ++ formatFixed4 lat)
        else if lon.lt (.finite ⟨-180, 1⟩) || lon.gt (.finite ⟨180, 1⟩) then
          .err ("longitude must be between -180 and 180, got: " ++ formatFixed4 lon)
        else .ok lat lon


/-- Sample environment for exercising the configuration loader. -/
def sampleEnv : String → String :=
  fun s =>
    if s = "OPENWEATHER_API_KEY" then "secret"
    else if s = "APP_SERVER_READ_TIMEOUT_SEC" then "42"
    else if s = "APP_SERVER_WRITE_TIMEOUT_SEC" then "oops"
    else ""

/-- The boolean strict order on fractions agrees with the rational order when
both denominators are positive. -/
theorem Frac.blt_iff (a b : Frac) (ha : 0 < a.den) (hb : 0 < b.den) :
    a.blt b = true ↔ a.toRat < b.toRat := by
  have hca : (0 : ℚ) < (a.den : ℚ) := by exact_mod_cast ha
  have hcb : (0 : ℚ) < (b.den : ℚ) := by exact_mod_cast hb
  unfold Frac.blt Frac.toRat
  simp only [decide_eq_true_eq]
  rw [div_lt_div_iff₀ hca hcb]
  constructor
  · intro h; exact_mod_cast h
  · intro h; exact_mod_cast h

/-- The boolean order `≤` on fractions agrees with the rational order when
both denominators are positive. -/
theorem Frac.ble_iff (a b : Frac) (ha : 0 < a.den) (hb : 0 < b.den) :
    a.ble b = true ↔ a.toRat ≤ b.toRat := by
  have hca : (0 : ℚ) < (a.den : ℚ) := by exact_mod_cast ha
  have hcb : (0 : ℚ) < (b.den : ℚ) := by exact_mod_cast hb
  unfold Frac.ble Frac.toRat
  simp only [decide_eq_true_eq]
  rw [div_le_div_iff₀ hca hcb]
  constructor
  · intro h; exact_mod_cast h
  · intro h; exact_mod_cast h

/-- C1.  On a body that parses with `cod = 200` and an empty `weather` array,
`GetWeather` does not return the documented upstream-malformed error
"weather array empty": the source evaluates `mapResponse.Weather[0]` and
panics with an index out of range.  Evaluated here at such a parsed body. -/
theorem serviceRespond_emptyWeather_panics :
    serviceRespond (fun _ => "") 200
      (.ok ⟨[], ⟨29315, 100⟩, 0, "US", "New York", 200, ""⟩) = .panicked := by decide

/-- C2.  The string "NaN" is accepted by `strconv.ParseFloat`, and the range
checks `lat < -90 || lat > 90` are both false for NaN, so validation passes
and the handler proceeds to call the upstream service with a NaN latitude,
contrary to the claim that every non-numeric float is rejected with a 400
before any upstream call. -/
theorem parseCoordinates_nan_accepted :
    parseCoordinates "NaN" "0" = .ok .nan (.finite ⟨0, 1⟩)
    ∧ (handleGetWeather "GET" "NaN" "0" (fun _ _ => .error "upstream probe")).2 = true :=
  ⟨by decide, by decide⟩

/-- C3.  Whenever validation succeeds and the weather service returns any
error whatsoever, the handler replies 503 with content type application/json
and exactly the fixed body; no part of the service error reaches the wire. -/
theorem handler_clientError_opaque503
    (latStr lonStr : String) (lat lon : GoFloat)
    (svc : GoFloat → GoFloat → Except String WeatherData) (e : String)
    (hp : parseCoordinates latStr lonStr = .ok lat lon)
    (hs : svc lat lon = .error e) :
    handleGetWeather "GET" latStr lonStr svc
      = (⟨some "application/json", some 503,
          "\x7b\"error\":\"Unable to fetch weather data\"\x7d\n"⟩, true) := by
  simp only [handleGetWeather, hp, hs]
  rfl

/-- Witness for C3 at concrete coordinates and a concrete upstream error. -/
theorem handler_clientError_opaque503_witness :
    handleGetWeather "GET" "40.7128" "-74.0060"
        (fun _ _ => .error "OpenWeatherMap API error (code 401): Invalid API key")
      = (⟨some "application/json", some 503,
          "\x7b\"error\":\"Unable to fetch weather data\"\x7d\n"⟩, true) :=
  handler_clientError_opaque503 "40.7128" "-74.0060"
    (.finite ⟨407128, 10000⟩) (.finite ⟨-740060, 10000⟩)
    (fun _ _ => .error "OpenWeatherMap API error (code 401): Invalid API key")
    "OpenWeatherMap API error (code 401): Invalid API key" (by decide) rfl

/-- C4.  Every successfully returned observation carries the category computed
from the converted Fahrenheit value, and the categorization is exactly
cold iff F < 50, moderate iff 50 ≤ F < 68, hot iff 68 ≤ F; in particular
F = 50 gives moderate and F = 68 gives hot. -/
theorem temperatureCategory_spec
    (fmtTime : Int → String) (status : Nat) (r : OpenWeatherMapResponse) (d : WeatherData)
    (h : serviceRespond fmtTime status (.ok r) = .ok d) :
    d.TemperatureCategory = categorizeTemperature (kelvinToFahrenheit r.MainTemp)
    ∧ (∀ F : Frac, 0 < F.den →
        ((categorizeTemperature F = "cold" ↔ F.toRat < 50)
         ∧ (categorizeTemperature F = "moderate" ↔ 50 ≤ F.toRat ∧ F.toRat < 68)
         ∧ (categorizeTemperature F = "hot" ↔ 68 ≤ F.toRat)))
    ∧ categorizeTemperature ⟨50, 1⟩ = "moderate"
    ∧ categorizeTemperature ⟨68, 1⟩ = "hot" := by
  refine ⟨?_, ?_, by decide, by decide⟩
  · simp only [serviceRespond] at h
    split at h
    · exact absurd h (by simp)
    · split at h
      · exact absurd h (by simp)
      · injection h with h2
        rw [← h2]
  · intro F hF
    have h50 : Frac.toRat ⟨50, 1⟩ = 50 := by simp [Frac.toRat]
    have h68 : Frac.toRat ⟨68, 1⟩ = 68 := by simp [Frac.toRat]
    have hb50 : F.blt ⟨50, 1⟩ = true ↔ F.toRat < 50 := by
      simpa [h50] using Frac.blt_iff F ⟨50, 1⟩ hF (by norm_num)
    have hb50le : Frac.ble ⟨50, 1⟩ F = true ↔ 50 ≤ F.toRat := by
      simpa [h50] using Frac.ble_iff ⟨50, 1⟩ F (by norm_num) hF
    have hb68 : F.blt ⟨68, 1⟩ = true ↔ F.toRat < 68 := by
      simpa [h68] using Frac.blt_iff F ⟨68, 1⟩ hF (by norm_num)
    unfold categorizeTemperature
    by_cases h1 : F.blt ⟨50, 1⟩ = true
    · have hF50 : F.toRat < 50 := hb50.mp h1
      rw [if_pos h1]
      refine ⟨iff_of_true rfl hF50,
              iff_of_false (by decide) ?_,
              iff_of_false (by decide) ?_⟩
      · rintro ⟨ha, -⟩; linarith
      · intro ha; linarith
    · have hF50 : 50 ≤ F.toRat := le_of_not_lt (fun hlt => h1 (hb50.mpr hlt))
      rw [if_neg h1]
      by_cases h2 : (Frac.ble ⟨50, 1⟩ F && F.blt ⟨68, 1⟩) = true
      · rw [if_pos h2]
        rw [Bool.and_eq_true] at h2
        have hF68 : F.toRat < 68 := hb68.mp h2.2
        refine ⟨iff_of_false (by decide) ?_,
                iff_of_true rfl ⟨hF50, hF68⟩,
                iff_of_false (by decide) ?_⟩
        · intro ha; linarith
        · intro ha; linarith
      · rw [if_neg h2]
        have hF68 : 68 ≤ F.toRat := by
          by_contra hx
          refine h2 ?_
          rw [Bool.and_eq_true]
          exact ⟨hb50le.mpr hF50, hb68.mpr (lt_of_not_le hx)⟩
        refine ⟨iff_of_false (by decide) ?_,
                iff_of_false (by decide) ?_,
                iff_of_true rfl hF68⟩
        · intro ha; linarith
        · rintro ⟨-, hb⟩; linarith

/-- Witness for C4 at the spec scenario: Kelvin 293.15 converts to exactly
68 °F and is categorized hot. -/
theorem temperatureCategory_spec_witness :
    (⟨"", "US", "New York", "Clear", "hot"⟩ : WeatherData).TemperatureCategory
        = categorizeTemperature (kelvinToFahrenheit ⟨29315, 100⟩)
    ∧ categorizeTemperature ⟨50, 1⟩ = "moderate"
    ∧ categorizeTemperature ⟨68, 1⟩ = "hot"
    ∧ (categorizeTemperature ⟨49, 1⟩ = "cold" ↔ Frac.toRat ⟨49, 1⟩ < 50) := by
  have h := temperatureCategory_spec (fun _ => "") 200
    ⟨["Clear"], ⟨29315, 100⟩, 0, "US", "New York", 200, ""⟩
    ⟨"", "US", "New York", "Clear", "hot"⟩ (by decide)
  exact ⟨h.1, h.2.2.1, h.2.2.2, (h.2.1 ⟨49, 1⟩ (by decide)).1⟩

/-- C5.  The outcome of response processing never depends on the HTTP status
code, and for a parsed body it is the upstream-status error carrying the
numeric code and the message exactly when the body field `cod` is not 200. -/
theorem upstreamCod_authoritative
    (fmtTime : Int → String) (s s' : Nat)
    (b : Except String OpenWeatherMapResponse) (r : OpenWeatherMapResponse) :
    serviceRespond fmtTime s b = serviceRespond fmtTime s' b
    ∧ (serviceRespond fmtTime s (.ok r)
        = .err ("OpenWeatherMap API error (code " ++ toString r.HttpCode ++ "): " ++ r.Message)
       ↔ r.HttpCode ≠ 200) := by
  refine ⟨rfl, ?_⟩
  by_cases hc : r.HttpCode = 200
  · cases hW : r.Weather <;> simp [serviceRespond, hc, hW]
  · simp [serviceRespond, hc]

/-- Witness for C5: body `cod` 401 with a message produces exactly the
upstream-status error. -/
theorem upstreamCod_authoritative_witness :
    serviceRespond (fun _ => "") 401
        (.ok ⟨[], ⟨0, 1⟩, 0, "", "", 401, "Invalid API key"⟩)
      = .err "OpenWeatherMap API error (code 401): Invalid API key" :=
  (upstreamCod_authoritative (fun _ => "") 401 401
      (.ok ⟨[], ⟨0, 1⟩, 0, "", "", 401, "Invalid API key"⟩)
      ⟨[], ⟨0, 1⟩, 0, "", "", 401, "Invalid API key"⟩).2.mpr (by decide)

/-- C6.  When validation fails, the handler's answer is the 400 error response
and is a value that does not mention the service at all, so it is identical
for every weather service implementation and the upstream-called flag is
false. -/
theorem validation400_no_upstream
    (latStr lonStr m : String) (svc : GoFloat → GoFloat → Except String WeatherData)
    (h : parseCoordinates latStr lonStr = .err m) :
    handleGetWeather "GET" latStr lonStr svc = (sendErrorResponse 400 m emptyWriter, false)
    ∧ (handleGetWeather "GET" latStr lonStr svc).1.status = some 400
    ∧ (handleGetWeather "GET" latStr lonStr svc).2 = false := by
  have h1 : handleGetWeather "GET" latStr lonStr svc
      = (sendErrorResponse 400 m emptyWriter, false) := by
    simp only [handleGetWeather, h]
    rfl
  exact ⟨h1, by rw [h1]; rfl, by rw [h1]⟩

/-- Witness for C6 at a concrete invalid latitude. -/
theorem validation400_no_upstream_witness :
    handleGetWeather "GET" "abc" "0" (fun _ _ => .error "probe")
      = (sendErrorResponse 400 "invalid latitude value: abc" emptyWriter, false) :=
  (validation400_no_upstream "abc" "0" "invalid latitude value: abc"
    (fun _ _ => .error "probe") (by decide)).1

/-- C7.  `parseCoordinates` applies the checks in the documented order —
missing-or-empty, then parseability of latitude then longitude, then the
range of latitude then longitude — returning the first failing check's
message, as witnessed by agreement with the spec-ordered pipeline on every
input and by the concrete messages, including `91 → 91.0000`. -/
theorem parseCoordinates_order_messages :
    (∀ latStr lonStr, parseCoordinates latStr lonStr = specOrderedValidation latStr lonStr)
    ∧ parseCoordinates "" "5" = .err "lat and lon query parameters are required"
    ∧ parseCoordinates "abc" "200" = .err "invalid latitude value: abc"
    ∧ parseCoordinates "91" "abc" = .err "invalid longitude value: abc"
    ∧ parseCoordinates "91" "0" = .err "latitude must be between -90 and 90, got: 91.0000"
    ∧ parseCoordinates "0" "200" = .err "longitude must be between -180 and 180, got: 200.0000" :=
  ⟨fun _ _ => rfl, by decide, by decide, by decide, by decide, by decide⟩

/-- C8.  When encoding fails after the handler has decided to respond, the
original status line has already been written; the attempted
`http.Error(w, "Internal server error", 500)` cannot change the wire status
(a second WriteHeader is ignored), so the client sees the original status
with the error text appended, not a 500. -/
theorem sendJSONResponse_encodeFailure_status :
    sendJSONResponse false 200 "\x7b\"status\":\"ok\"\x7d" emptyWriter
      = ⟨some "application/json", some 200, "Internal server error\n"⟩
    ∧ (sendJSONResponse false 200 "\x7b\"status\":\"ok\"\x7d" emptyWriter).status ≠ some 500 :=
  ⟨by decide, by decide⟩

/-- C9 counterexample.  At concrete inputs the produced URL carries the query
parameters sorted by key — appid first — and differs from the claimed
`?lat=..&lon=..&appid=..` order. -/
theorem buildAPIURL_order_counterexample :
    buildAPIURL "https://api.openweathermap.org/data/2.5" "key" ⟨1, 1⟩ ⟨2, 1⟩
      = "https://api.openweathermap.org/data/2.5/weather?appid=key&lat=1&lon=2"
    ∧ buildAPIURL "https://api.openweathermap.org/data/2.5" "key" ⟨1, 1⟩ ⟨2, 1⟩
      ≠ "https://api.openweathermap.org/data/2.5/weather?lat=1&lon=2&appid=key" :=
  ⟨by decide, by decide⟩

/-- C9 amended.  For every base URL, key and coordinate pair, the URL is
`{baseURL}/weather?` followed by the three parameters in sorted key order:
appid, then lat, then lon, the coordinates in shortest decimal form and the
key escaped as a query component. -/
theorem buildAPIURL_sorted_params (baseURL apiKey : String) (lat lon : Frac) :
    buildAPIURL baseURL apiKey lat lon
      = baseURL ++ "/weather?" ++ encodePairs
          [("appid", apiKey), ("lat", formatFloatShortest lat),
           ("lon", formatFloatShortest lon)] := rfl

/-- C10.  `GetEnvAsIntWithDefault` returns the parsed value exactly when the
variable parses as an int and the default when it is unset/empty or
unparseable, and `loadServerConfig` succeeds exactly when
OPENWEATHER_API_KEY is non-empty — no other variable can fail startup. -/
theorem config_loading_spec (env : String → String) (envName : String) (d n : Int) :
    (goAtoi (env envName) = some n → getEnvAsIntWithDefault env envName d = n)
    ∧ (env envName = "" → getEnvAsIntWithDefault env envName d = d)
    ∧ (goAtoi (env envName) = none → getEnvAsIntWithDefault env envName d = d)
    ∧ ((∃ c, loadServerConfig env = .ok c) ↔ ¬ env "OPENWEATHER_API_KEY" = "") := by
  refine ⟨?_, ?_, ?_, ?_⟩
  · intro h
    unfold getEnvAsIntWithDefault
    by_cases he : env envName = ""
    · rw [he] at h
      exact absurd h (by simp [goAtoi])
    · rw [if_neg he, h]
  · intro h
    unfold getEnvAsIntWithDefault
    rw [if_pos h]
  · intro h
    unfold getEnvAsIntWithDefault
    split
    · rfl
    · rw [h]
  · unfold loadServerConfig getEnvAsMustStr
    by_cases hk : env "OPENWEATHER_API_KEY" = ""
    · rw [if_pos hk]
      simp [hk]
    · rw [if_neg hk]
      simp [hk]

/-- Witness for C10: a parsed value is used, an unset and an unparseable
variable fall back to their defaults, and loading succeeds when the API key
is present. -/
theorem config_loading_spec_witness :
    getEnvAsIntWithDefault sampleEnv "APP_SERVER_READ_TIMEOUT_SEC" 15 = 42
    ∧ getEnvAsIntWithDefault sampleEnv "APP_SERVER_IDLE_TIMEOUT_SEC" 120 = 120
    ∧ getEnvAsIntWithDefault sampleEnv "APP_SERVER_WRITE_TIMEOUT_SEC" 15 = 15
    ∧ (∃ c, loadServerConfig sampleEnv = .ok c) :=
  ⟨(config_loading_spec sampleEnv "APP_SERVER_READ_TIMEOUT_SEC" 15 42).1 (by decide),
   (config_loading_spec sampleEnv "APP_SERVER_IDLE_TIMEOUT_SEC" 120 0).2.1 (by decide),
   (config_loading_spec sampleEnv "APP_SERVER_WRITE_TIMEOUT_SEC" 15 0).2.2.1 (by decide),
   (config_loading_spec sampleEnv "X" 0 0).2.2.2.mpr (by decide)⟩
